import Mathlib

/-!
Shallow embedding of the payment-generation and status-reconciliation core of
the `pos-dynamic-qris` backend (Go), covering:

* `internal/domain/entities/{payment,transaction,product}.go`
* `internal/usecases/payment` (`GenerateQRIS`, `GetPaymentStatus`,
  `HandlePaymentNotification`, `RefreshQRIS`, `mapTransactionItemsToQRISItems`)
* `internal/infrastructure/database/repositories/payment_repository_impl.go`
  together with the partial unique index of migration
  `008_add_unique_pending_payment_constraint.up.sql`.

Modelling conventions: Go `time.Time` instants are integers (an abstract
clock; `time.Now()` becomes an explicit `now` parameter); monetary `float64`
amounts are rationals; generated UUIDs are explicit string parameters; the
Midtrans gateway is abstracted as a call result passed in by the caller;
repository reads that can only fail with `gorm.ErrRecordNotFound` are
`Option`-valued, and repository writes return `Except` capturing the
constraint violations the database can raise.
-/

namespace QrisPos

/-- Payment status enum from `entities/payment.go`. -/
inductive PaymentStatus
  | pending
  | success
  | failed
  | expired
  | cancelled
deriving DecidableEq, Repr

/-- Transaction status enum from `entities/transaction.go`. -/
inductive TransactionStatus
  | pending
  | paid
  | cancelled
  | expired
deriving DecidableEq, Repr

/-- Payment method enum (only QRIS exists) from `entities/payment.go`. -/
inductive PaymentMethod
  | qris
deriving DecidableEq, Repr

/-- `entities.Product` (the fields the payment core reads). -/
structure Product where
  id : String
  name : String
  price : ℚ
  stock : Int
  isActive : Bool
deriving DecidableEq, Repr

/-- `entities.TransactionItem`. -/
structure TransactionItem where
  id : String
  transactionID : String
  productID : String
  quantity : Int
  unitPrice : ℚ
  totalPrice : ℚ
  product : Product
deriving DecidableEq, Repr

/-- `entities.Transaction`; the `User` relation is flattened to the two
fields the payment use case reads (`transaction.User.Name` / `.Email`). -/
structure Transaction where
  id : String
  userID : String
  totalAmount : ℚ
  taxAmount : ℚ
  discount : ℚ
  status : TransactionStatus
  notes : String
  items : List TransactionItem
  userName : String
  userEmail : String
  updatedAt : Int
deriving DecidableEq, Repr

/-- `entities.Payment`.  `orderID` is the `order_id` column added by
migration 006 and used throughout the payment use case. -/
structure Payment where
  id : String
  transactionID : String
  amount : ℚ
  method : PaymentMethod
  status : PaymentStatus
  externalID : String
  externalResponse : String
  orderID : String
  paidAt : Option Int
  expiresAt : Int
  deletedAt : Option Int
deriving DecidableEq, Repr

/-- `entities.QRISCode`; `url` is the column introduced by migration 011
(replacing `qr_image`) and used by the payment use case. -/
structure QRISCode where
  id : String
  transactionID : String
  paymentID : String
  qrCode : String
  url : String
  expiresAt : Int
  deletedAt : Option Int
deriving DecidableEq, Repr

/-- `Payment.IsExpired`: `time.Now().After(p.ExpiresAt)`. -/
def Payment.isExpired (p : Payment) (now : Int) : Bool :=
  p.expiresAt < now

/-- `Payment.CanBeProcessed`: pending and not expired. -/
def Payment.canBeProcessed (p : Payment) (now : Int) : Bool :=
  decide (p.status = .pending) && !(p.isExpired now)

/-- `Payment.MarkAsSuccess`. -/
def Payment.markAsSuccess (p : Payment) (externalID externalResponse : String)
    (now : Int) : Payment :=
  { p with
    status := .success
    externalID := externalID
    externalResponse := externalResponse
    paidAt := some now }

/-- `Payment.MarkAsFailed`. -/
def Payment.markAsFailed (p : Payment) (externalResponse : String) : Payment :=
  { p with status := .failed, externalResponse := externalResponse }

/-- `Payment.MarkAsExpired`. -/
def Payment.markAsExpired (p : Payment) : Payment :=
  { p with status := .expired }

/-- `entities.NewPayment`: fresh pending QRIS payment expiring
`expiryMinutes` minutes (here ×60 abstract ticks) from `now`; the generated
UUID is the explicit `id` argument. -/
def newPayment (transactionID : String) (amount : ℚ) (expiryMinutes : Int)
    (id : String) (now : Int) : Payment :=
  { id := id
    transactionID := transactionID
    amount := amount
    method := .qris
    status := .pending
    externalID := ""
    externalResponse := ""
    orderID := ""
    paidAt := none
    expiresAt := now + expiryMinutes * 60
    deletedAt := none }

/-- `entities.NewQRISCode` (fourth Go argument stores the URL since
migration 011). -/
def newQRISCode (transactionID paymentID qrCode url : String) (id : String)
    (now expiryMinutes : Int) : QRISCode :=
  { id := id
    transactionID := transactionID
    paymentID := paymentID
    qrCode := qrCode
    url := url
    expiresAt := now + expiryMinutes * 60
    deletedAt := none }

/-- `Product.IsAvailable`. -/
def Product.isAvailable (p : Product) : Bool :=
  p.isActive && decide (0 < p.stock)

/-- `Product.CanFulfillQuantity`. -/
def Product.canFulfillQuantity (p : Product) (quantity : Int) : Bool :=
  decide (quantity ≤ p.stock)

/-- `Transaction.getSubtotal`: sum of item line totals. -/
def Transaction.getSubtotal (t : Transaction) : ℚ :=
  (t.items.map TransactionItem.totalPrice).sum

/-- `Transaction.calculateTotal`: `TotalAmount = subtotal - Discount +
TaxAmount`, touching `UpdatedAt`. -/
def Transaction.calculateTotal (t : Transaction) (now : Int) : Transaction :=
  { t with totalAmount := t.getSubtotal - t.discount + t.taxAmount
           updatedAt := now }

/-- `Transaction.AddItem` from `entities/transaction.go` (the generated item
UUID is the explicit `itemID` argument). -/
def Transaction.addItem (t : Transaction) (productID : String)
    (product : Option Product) (quantity : Int) (itemID : String)
    (now : Int) : Except String Transaction :=
  match product with
  | none => .error ("product cannot be nil")
  | some prod =>
    if !prod.isAvailable then .error ("product is not available")
    else if !prod.canFulfillQuantity quantity then .error ("insufficient stock")
    else
      let unitPrice := prod.price
      let totalPrice := unitPrice * (quantity : ℚ)
      let item : TransactionItem :=
        { id := itemID
          transactionID := t.id
          productID := productID
          quantity := quantity
          unitPrice := unitPrice
          totalPrice := totalPrice
          product := prod }
      .ok (Transaction.calculateTotal { t with items := t.items ++ [item] } now)

/-- `Transaction.MarkAsPaid`. -/
def Transaction.markAsPaid (t : Transaction) (now : Int) :
    Except String Transaction :=
  if t.status ≠ .pending then
    .error ("only pending transactions can be marked as paid")
  else
    .ok { t with status := .paid, updatedAt := now }

/-- Line item of a Midtrans charge request (`payment.QRISItem`). -/
structure QRISItem where
  id : String
  name : String
  price : ℚ
  quantity : Int
deriving DecidableEq, Repr

/-- Midtrans charge response (`payment.QRISResponse`): the EMVCo QR string
and the simulator URL. -/
structure QRISResponse where
  qrString : String
  url : String
deriving DecidableEq, Repr

/-- Midtrans transaction-status answer (the fields `GetPaymentStatus`
reads). -/
structure MidtransStatus where
  transactionStatus : String
  transactionID : String
  statusMessage : String
deriving DecidableEq, Repr

/-- Result of the Midtrans `GetTransactionStatus` call as seen by
`GetPaymentStatus`: either an answer or a failure. -/
inductive GatewayResult
  | ok (s : MidtransStatus)
  | fail
deriving DecidableEq, Repr

/-- `mapTransactionItemsToQRISItems`: one entry per transaction item, plus a
synthetic tax entry when `TaxAmount > 0`, plus a synthetic negative discount
entry when `Discount > 0`. -/
def mapTransactionItemsToQRISItems (t : Transaction) : List QRISItem :=
  let base := t.items.map (fun item =>
    { id := item.productID
      name := item.product.name
      price := item.unitPrice
      quantity := item.quantity : QRISItem })
  let withTax :=
    if 0 < t.taxAmount then
      base ++ [{ id := "TAX", name := "Tax", price := t.taxAmount,
                 quantity := 1 }]
    else base
  if 0 < t.discount then
    withTax ++ [{ id := "DISCOUNT", name := "Discount",
                  price := -t.discount, quantity := 1 }]
  else withTax

/-- Sum of the gateway line items (`item.Price * float64(item.Quantity)`
accumulated, as in the debug reconciliation loop of `GenerateQRIS`). -/
def qrisItemsSum (l : List QRISItem) : ℚ :=
  (l.map (fun it => it.price * (it.quantity : ℚ))).sum

/-- `order_id` construction shared by `GenerateQRIS` and `RefreshQRIS`:
`fmt.Sprintf("qris-%s-%d", shortTxID, now.Unix())` with the transaction id
truncated to 8 characters. -/
def orderIDFor (transactionID : String) (now : Int) : String :=
  "qris-" ++ transactionID.take 8 ++ "-" ++ toString now

/-! ## Storage model

The `payments` and `qris_codes` tables, with the repository operations of
`payment_repository_impl.go`.  Writes enforce the primary keys and the
partial unique index of migration 008:

    CREATE UNIQUE INDEX idx_unique_pending_payment_per_transaction
    ON payments (transaction_id)
    WHERE status IN ('pending', 'success') AND deleted_at IS NULL;
-/

/-- The two tables the payment core touches. -/
structure DB where
  payments : List Payment
  qrcodes : List QRISCode
deriving DecidableEq, Repr

/-- The empty database. -/
def emptyDB : DB := { payments := [], qrcodes := [] }

/-- Errors a repository write can raise: the partial unique index of
migration 008, or a primary-key conflict. -/
inductive RepoError
  | uniqueViolation
  | pkViolation
deriving DecidableEq, Repr

/-- Row covered by the partial unique index for transaction `tid`:
`status IN ('pending','success') AND deleted_at IS NULL`. -/
def isActiveStatus : PaymentStatus → Bool
  | .pending => true
  | .success => true
  | _ => false

/-- Predicate of the partial unique index restricted to one transaction. -/
def isActiveRow (tid : String) (p : Payment) : Bool :=
  p.transactionID == tid && isActiveStatus p.status && p.deletedAt.isNone

/-- Number of non-soft-deleted `{pending, success}` payment rows of a
transaction. -/
def activeCount (db : DB) (tid : String) : Nat :=
  db.payments.countP (isActiveRow tid)

/-- Whether some row is covered by the partial unique index for `tid`. -/
def hasActive (db : DB) (tid : String) : Bool :=
  db.payments.any (isActiveRow tid)

/-- Whether a payment row with primary key `i` exists. -/
def hasPaymentID (db : DB) (i : String) : Bool :=
  db.payments.any (fun p => p.id == i)

/-- `CreatePayment` (`INSERT`): fails on a duplicate primary key, or — the
partial unique index — when the inserted row has an active status and
another active row for the same transaction exists. -/
def createPayment (db : DB) (p : Payment) : Except RepoError DB :=
  if hasPaymentID db p.id then .error .pkViolation
  else if isActiveStatus p.status && hasActive db p.transactionID then
    .error .uniqueViolation
  else .ok { db with payments := db.payments ++ [p] }

/-- Replace the (unique, by primary key) row with `p.id` by `p`. -/
def replacePayment : List Payment → Payment → List Payment
  | [], _ => []
  | r :: rest, p =>
    if r.id == p.id then p :: rest else r :: replacePayment rest p

/-- Whether updating row `p.id` to the values `p` would collide with the
partial unique index: some other row of the same transaction is active. -/
def updConflict (db : DB) (p : Payment) : Bool :=
  db.payments.any (fun q => !(q.id == p.id) && isActiveRow p.transactionID q)

/-- `UpdatePayment` (GORM `Save`, an `UPDATE` by primary key): rewrites the
row in place; the partial unique index rejects an update that would make a
second row of the same transaction active. -/
def updatePayment (db : DB) (p : Payment) : Except RepoError DB :=
  if hasPaymentID db p.id && isActiveStatus p.status && updConflict db p then
    .error .uniqueViolation
  else .ok { db with payments := replacePayment db.payments p }

/-- `DeletePayment`: GORM soft delete — sets `deleted_at`. -/
def deletePayment (db : DB) (i : String) (now : Int) : DB :=
  { db with payments := db.payments.map (fun p =>
      if p.id == i then { p with deletedAt := some now } else p) }

/-- `GetPaymentByTransactionID`: GORM `First` over non-soft-deleted rows,
`none` standing for `gorm.ErrRecordNotFound`. -/
def getPaymentByTransactionID (db : DB) (tid : String) : Option Payment :=
  (db.payments.filter (fun p =>
    p.transactionID == tid && p.deletedAt.isNone)).head?

/-- `CreateQRISCode` (`INSERT`, primary key only). -/
def createQRISCode (db : DB) (q : QRISCode) : Except RepoError DB :=
  if db.qrcodes.any (fun r => r.id == q.id) then .error .pkViolation
  else .ok { db with qrcodes := db.qrcodes ++ [q] }

/-- Replace the (unique, by primary key) QR-code row with `q.id` by `q`. -/
def replaceQRIS : List QRISCode → QRISCode → List QRISCode
  | [], _ => []
  | r :: rest, q =>
    if r.id == q.id then q :: rest else r :: replaceQRIS rest q

/-- `UpdateQRISCode` (GORM `Save`). -/
def updateQRISCode (db : DB) (q : QRISCode) : DB :=
  { db with qrcodes := replaceQRIS db.qrcodes q }

/-- `DeleteQRISCode`: GORM soft delete. -/
def deleteQRISCode (db : DB) (i : String) (now : Int) : DB :=
  { db with qrcodes := db.qrcodes.map (fun q =>
      if q.id == i then { q with deletedAt := some now } else q) }

/-- `GetQRISCodeByPaymentID`: GORM `First` over non-soft-deleted rows. -/
def getQRISCodeByPaymentID (db : DB) (pid : String) : Option QRISCode :=
  (db.qrcodes.filter (fun q =>
    q.paymentID == pid && q.deletedAt.isNone)).head?

/-- One atomic storage operation.  Any interleaving of concurrent API calls
is a sequence of these steps, since each repository method issues a single
statement against the database. -/
inductive DBStep : DB → DB → Prop
  | create (p : Payment) (db db' : DB) :
      createPayment db p = .ok db' → DBStep db db'
  | update (p : Payment) (db db' : DB) :
      updatePayment db p = .ok db' → DBStep db db'
  | softDelete (i : String) (now : Int) (db : DB) :
      DBStep db (deletePayment db i now)
  | createQR (q : QRISCode) (db db' : DB) :
      createQRISCode db q = .ok db' → DBStep db db'
  | updateQR (q : QRISCode) (db : DB) :
      DBStep db (updateQRISCode db q)
  | deleteQR (i : String) (now : Int) (db : DB) :
      DBStep db (deleteQRISCode db i now)

/-- Database states reachable from the empty database through repository
operations. -/
def Reachable (db : DB) : Prop :=
  Relation.ReflTransGen DBStep emptyDB db

/-- The storage invariant of migration 008: at most one non-soft-deleted
payment row with status in `{pending, success}` per transaction. -/
def UniqueActive (db : DB) : Prop :=
  ∀ tid, activeCount db tid ≤ 1

/-- Auxiliary invariant: primary keys of payment rows are distinct. -/
def PKUnique (db : DB) : Prop :=
  (db.payments.map Payment.id).Nodup

/-- Inductive storage invariant. -/
def Inv (db : DB) : Prop :=
  UniqueActive db ∧ PKUnique db

/-! ## Payment orchestrator (`internal/usecases/payment`)

The use-case methods.  The gateway interaction is abstracted: the result of
the (already issued) Midtrans call is an argument.  Repository writes the Go
code only logs on failure are folded in as best-effort; writes whose failure
aborts the call keep their `Except` shape.  Since the use case never wraps
its repository calls in a storage transaction, a concurrent writer may
commit between any two of them — which is why `generateQRISPersist` (the
post-charge persistence phase, lines 414–458 of the use case) takes the
database state at persist time as its own argument. -/

/-- `uc.defaultExpiryMin`. -/
def defaultExpiryMin : Int := 10

/-- `GenerateQRISRequest` (validated HTTP payload). -/
structure GenerateQRISRequest where
  transactionID : String
  amount : ℚ
  callbackURL : String
  expiryMinutes : Int
deriving DecidableEq, Repr

/-- Errors surfaced by the payment use case. -/
inductive AppError
  | transactionNotFound
  | transactionNotPending
  | paymentNotFound
  | cannotRefresh
  | gatewayFailed
  | repo (e : RepoError)
deriving DecidableEq, Repr

/-- Outcome of `GenerateQRIS` / `RefreshQRIS`: the response (the payment and
QR-code entities behind `mapPaymentToResponse`), the database after the
call, and whether a Midtrans charge was issued. -/
structure GenerateOutcome where
  result : Except AppError (Payment × Option QRISCode)
  db : DB
  chargedGateway : Bool
deriving Repr

/-- `GenerateQRIS` lines 414–458: persist the payment first; on a
uniqueness-constraint violation fetch and return the winning payment and its
QR code (surfacing the original insert error if either fetch misses); on
success persist the QR code, compensating a QR-code insert failure by
(soft-)deleting the just-created payment. -/
def generateQRISPersist (db : DB) (paymentEntity : Payment)
    (r : QRISResponse) (newQRID : String) (expiryMinutes now : Int) :
    GenerateOutcome :=
  match createPayment db paymentEntity with
  | .error .uniqueViolation =>
    match getPaymentByTransactionID db paymentEntity.transactionID with
    | none => { result := .error (.repo .uniqueViolation), db := db,
                chargedGateway := true }
    | some winner =>
      match getQRISCodeByPaymentID db winner.id with
      | none => { result := .error (.repo .uniqueViolation), db := db,
                  chargedGateway := true }
      | some q => { result := .ok (winner, some q), db := db,
                    chargedGateway := true }
  | .error e => { result := .error (.repo e), db := db,
                  chargedGateway := true }
  | .ok db2 =>
    let qrCodeEntity := newQRISCode paymentEntity.transactionID
      paymentEntity.id r.qrString r.url newQRID now expiryMinutes
    match createQRISCode db2 qrCodeEntity with
    | .error e =>
      { result := .error (.repo e),
        db := deletePayment db2 paymentEntity.id now,
        chargedGateway := true }
    | .ok db3 =>
      { result := .ok (paymentEntity, some qrCodeEntity), db := db3,
        chargedGateway := true }

/-- `GenerateQRIS` lines 353–458: build the payment entity and order id,
charge the gateway, then persist. -/
def generateQRISCharge (db : DB) (t : Transaction)
    (req : GenerateQRISRequest) (gw : Except Unit QRISResponse)
    (newPaymentID newQRID : String) (now : Int) : GenerateOutcome :=
  let expiryMinutes :=
    if req.expiryMinutes ≤ 0 then defaultExpiryMin else req.expiryMinutes
  let orderID := orderIDFor req.transactionID now
  let paymentEntity :=
    { newPayment req.transactionID req.amount expiryMinutes newPaymentID now
      with orderID := orderID }
  let _qrisReq :=
    (orderID, t.totalAmount, t.userName, t.userEmail,
     mapTransactionItemsToQRISItems t, expiryMinutes)
  match gw with
  | .error _ =>
    { result := .error .gatewayFailed, db := db, chargedGateway := true }
  | .ok r => generateQRISPersist db paymentEntity r newQRID expiryMinutes now

/-- `GenerateQRIS` (sequential run: the database is not mutated by others
between its repository calls).  `txn` is the `GetByIDWithDetails` result,
`gw` the Midtrans charge result, `newPaymentID`/`newQRID` the UUIDs the
entities would generate. -/
def generateQRIS (db : DB) (txn : Option Transaction)
    (gw : Except Unit QRISResponse) (req : GenerateQRISRequest)
    (newPaymentID newQRID : String) (now : Int) : GenerateOutcome :=
  match txn with
  | none =>
    { result := .error .transactionNotFound, db := db,
      chargedGateway := false }
  | some t =>
    if t.status ≠ .pending then
      { result := .error .transactionNotPending, db := db,
        chargedGateway := false }
    else
      match getPaymentByTransactionID db req.transactionID with
      | some existingPayment =>
        if existingPayment.canBeProcessed now then
          { result := .ok (existingPayment,
              getQRISCodeByPaymentID db existingPayment.id),
            db := db, chargedGateway := false }
        else
          let db1 :=
            if existingPayment.isExpired now then
              (updatePayment db existingPayment.markAsExpired).toOption.getD db
            else db
          generateQRISCharge db1 t req gw newPaymentID newQRID now
      | none => generateQRISCharge db t req gw newPaymentID newQRID now

/-- `PaymentStatusResponse`. -/
structure PaymentStatusResponse where
  transactionID : String
  status : PaymentStatus
  externalID : String
  message : String
deriving DecidableEq, Repr

/-- Textual form of a payment status (Go prints the status value). -/
def statusText : PaymentStatus → String
  | .pending => "pending"
  | .success => "success"
  | .failed => "failed"
  | .expired => "expired"
  | .cancelled => "cancelled"

/-- Outcome of `GetPaymentStatus`, after the payment has been fetched: the
response, the final in-memory payment entity and transaction, whether the
gateway was queried, and which rows were written back (`UpdatePayment` /
`transactionRepo.Update`). -/
structure StatusOutcome where
  resp : PaymentStatusResponse
  payment : Payment
  transaction : Option Transaction
  calledGateway : Bool
  persistedPayment : Bool
  persistedTransaction : Bool
deriving DecidableEq, Repr

/-- `GetPaymentStatus` lines 472–556 (after the payment lookup; a missing
payment maps to `ErrPaymentNotFound` upstream).  `txn` is the
`transactionRepo.GetByID` result consulted in the settlement case, `gw` the
Midtrans status answer. -/
def getPaymentStatus (p : Payment) (txn : Option Transaction)
    (gw : GatewayResult) (now : Int) : StatusOutcome :=
  if p.status ≠ .pending ∧ p.status ≠ .expired then
    { resp := { transactionID := p.transactionID, status := p.status,
                externalID := p.externalID,
                message := "Payment status: " ++ statusText p.status }
      payment := p, transaction := txn, calledGateway := false,
      persistedPayment := false, persistedTransaction := false }
  else if p.isExpired now then
    let pp := if p.status ≠ .expired then (p.markAsExpired, true)
              else (p, false)
    { resp := { transactionID := p.transactionID, status := .expired,
                externalID := "", message := "Payment has expired" }
      payment := pp.1, transaction := txn, calledGateway := false,
      persistedPayment := pp.2, persistedTransaction := false }
  else if p.orderID = "" then
    { resp := { transactionID := p.transactionID, status := .pending,
                externalID := "",
                message :=
                  "Payment is pending. Waiting for customer to complete payment." }
      payment := p, transaction := txn, calledGateway := false,
      persistedPayment := false, persistedTransaction := false }
  else
    match gw with
    | .fail =>
      { resp := { transactionID := p.transactionID, status := .pending,
                  externalID := "",
                  message :=
                    "Payment is pending. Waiting for customer to complete payment." }
        payment := p, transaction := txn, calledGateway := true,
        persistedPayment := false, persistedTransaction := false }
    | .ok m =>
      let step :
          PaymentStatus × Payment × Option Transaction × Bool :=
        if m.transactionStatus = "settlement" ∨
            m.transactionStatus = "capture" then
          let p1 := p.markAsSuccess m.transactionID m.statusMessage now
          match txn with
          | some t =>
            (.success, p1, some ((t.markAsPaid now).toOption.getD t), true)
          | none => (.success, p1, none, false)
        else if m.transactionStatus = "pending" then
          (.pending, p, txn, false)
        else if m.transactionStatus = "deny" ∨
            m.transactionStatus = "cancel" ∨
            m.transactionStatus = "expire" then
          (.failed, p.markAsFailed m.statusMessage, txn, false)
        else
          (.pending, p, txn, false)
      { resp := { transactionID := p.transactionID, status := step.1,
                  externalID := m.transactionID,
                  message := m.statusMessage }
        payment := step.2.1, transaction := step.2.2.1,
        calledGateway := true, persistedPayment := true,
        persistedTransaction := step.2.2.2 }

/-- `HandlePaymentNotification`: the webhook handler only logs the
notification and acknowledges it — no lookup, no state change
(lines 559–586). -/
def handlePaymentNotification (db : DB)
    (orderID status externalID response : String) : DB × Option AppError :=
  let _ := (orderID, status, externalID, response)
  (db, none)

/-- `RefreshQRIS` lines 589–699.  `txn` is the `GetByIDWithDetails` result,
`gw` the Midtrans charge result, `newQRID` the UUID a freshly created QR
code would get. -/
def refreshQRIS (db : DB) (txn : Option Transaction)
    (gw : Except Unit QRISResponse) (transactionID newQRID : String)
    (now : Int) : GenerateOutcome :=
  match getPaymentByTransactionID db transactionID with
  | none =>
    { result := .error .paymentNotFound, db := db, chargedGateway := false }
  | some p =>
    if p.status ≠ .pending ∧ p.status ≠ .expired then
      { result := .error .cannotRefresh, db := db, chargedGateway := false }
    else
      match txn with
      | none =>
        { result := .error .transactionNotFound, db := db,
          chargedGateway := false }
      | some _t =>
        let p1 := { p with orderID := orderIDFor transactionID now }
        match gw with
        | .error _ =>
          { result := .error .gatewayFailed, db := db,
            chargedGateway := true }
        | .ok r =>
          let newExpiry := now + defaultExpiryMin * 60
          let p2 := { p1 with
            expiresAt := newExpiry
            status := PaymentStatus.pending
            externalID := ""
            externalResponse := "" }
          let qrCodeEntity :=
            match getQRISCodeByPaymentID db p.id with
            | none =>
              newQRISCode transactionID p.id r.qrString r.url newQRID now
                defaultExpiryMin
            | some q =>
              { q with
                qrCode := r.qrString
                url := r.url
                expiresAt := newExpiry }
          match updatePayment db p2 with
          | .error e =>
            { result := .error (.repo e), db := db, chargedGateway := true }
          | .ok db2 =>
            if qrCodeEntity.id = "" then
              match createQRISCode db2 qrCodeEntity with
              | .error e =>
                { result := .error (.repo e), db := db2,
                  chargedGateway := true }
              | .ok db3 =>
                { result := .ok (p2, some qrCodeEntity), db := db3,
                  chargedGateway := true }
            else
              { result := .ok (p2, some qrCodeEntity),
                db := updateQRISCode db2 qrCodeEntity,
                chargedGateway := true }

/-- The payment row as a successful `RefreshQRIS` rewrites it: new order
reference and expiry, status reset to pending, external reference and
response cleared. -/
def refreshedPayment (p : Payment) (tid : String) (now : Int) : Payment :=
  { p with
    orderID := orderIDFor tid now
    expiresAt := now + defaultExpiryMin * 60
    status := .pending
    externalID := ""
    externalResponse := "" }

/-- The QR-code row as a successful `RefreshQRIS` rewrites it: new code,
URL and expiry. -/
def refreshedQRIS (q : QRISCode) (r : QRISResponse) (now : Int) : QRISCode :=
  { q with
    qrCode := r.qrString
    url := r.url
    expiresAt := now + defaultExpiryMin * 60 }

/-! ## Concrete sample data

Fixed entities used to instantiate the theorems below on closed inputs. -/

/-- A fixed transaction id. -/
def cTid : String := "tx-0001"

/-- A pending payment row for `cTid`, created at tick 50, expiring at 650. -/
def cPayA : Payment :=
  { id := "pay-A"
    transactionID := cTid
    amount := 25000
    method := .qris
    status := .pending
    externalID := ""
    externalResponse := ""
    orderID := orderIDFor cTid 50
    paidAt := none
    expiresAt := 650
    deletedAt := none }

/-- A second, identically shaped payment for the same transaction, as a
concurrent `GenerateQRIS` call would build it. -/
def cPayB : Payment :=
  { cPayA with id := "pay-B", orderID := orderIDFor cTid 51 }

/-- Database holding only `cPayA` — the state right after the winning call
committed its payment insert but before it persisted the QR code. -/
def db1 : DB := { payments := [cPayA], qrcodes := [] }

/-- A Midtrans charge response. -/
def cResp : QRISResponse :=
  { qrString := "00020101QR-A", url := "https://simulator.example/qr-a" }

/-- The QR-code row of `cPayA`. -/
def cQRA : QRISCode :=
  newQRISCode cTid "pay-A" "00020101QR-A" "https://simulator.example/qr-a"
    "qr-A" 50 10

/-- Quiescent database: `cPayA` together with its QR code. -/
def db2 : DB := { payments := [cPayA], qrcodes := [cQRA] }

/-- The pending transaction behind `cTid`. -/
def cTxn : Transaction :=
  { id := cTid
    userID := "user-1"
    totalAmount := 25000
    taxAmount := 0
    discount := 0
    status := .pending
    notes := ""
    items := []
    userName := "Cashier"
    userEmail := "cashier@example.com"
    updatedAt := 0 }

/-- A generate request for `cTid`. -/
def cReq : GenerateQRISRequest :=
  { transactionID := cTid
    amount := 25000
    callbackURL := ""
    expiryMinutes := 10 }

/-- Products of the worked amount-reconciliation example of the spec
(two items: qty 2 at 10000, qty 1 at 5000, tax 2500, discount 0). -/
def exProduct1 : Product :=
  { id := "prod-1", name := "Item A", price := 10000, stock := 10,
    isActive := true }

/-- Second product of the worked example. -/
def exProduct2 : Product :=
  { id := "prod-2", name := "Item B", price := 5000, stock := 10,
    isActive := true }

/-- First line item of the worked example. -/
def exItem1 : TransactionItem :=
  { id := "item-1", transactionID := "tx-ex", productID := "prod-1",
    quantity := 2, unitPrice := 10000, totalPrice := 20000,
    product := exProduct1 }

/-- Second line item of the worked example. -/
def exItem2 : TransactionItem :=
  { id := "item-2", transactionID := "tx-ex", productID := "prod-2",
    quantity := 1, unitPrice := 5000, totalPrice := 5000,
    product := exProduct2 }

/-- The worked-example transaction: items summing to 25000, tax 2500,
discount 0, total 27500. -/
def exTxn : Transaction :=
  { id := "tx-ex"
    userID := "user-1"
    totalAmount := 27500
    taxAmount := 2500
    discount := 0
    status := .pending
    notes := ""
    items := [exItem1, exItem2]
    userName := "Cashier"
    userEmail := "cashier@example.com"
    updatedAt := 0 }

/-- An available product with positive stock. -/
def exProd : Product :=
  { id := "p1", name := "Coffee", price := 10, stock := 5, isActive := true }

/-- An empty pending cart. -/
def exCart : Transaction :=
  { id := "tx-cart"
    userID := "user-1"
    totalAmount := 0
    taxAmount := 0
    discount := 0
    status := .pending
    notes := ""
    items := []
    userName := "Cashier"
    userEmail := "cashier@example.com"
    updatedAt := 0 }

/-- A Midtrans settlement answer. -/
def cSettlement : MidtransStatus :=
  { transactionStatus := "settlement"
    transactionID := "mid-123"
    statusMessage := "Success, transaction is found" }

/-! ## Storage-invariant lemmas -/

theorem isActiveRow_iff {tid : String} {p : Payment} :
    isActiveRow tid p = true ↔
      p.transactionID = tid ∧ isActiveStatus p.status = true ∧
        p.deletedAt = none := by
  simp [isActiveRow, Bool.and_eq_true, Option.isNone_iff_eq_none, and_assoc]

theorem activeCount_of_hasActive_false {db : DB} {tid : String}
    (h : hasActive db tid = false) : activeCount db tid = 0 := by
  unfold hasActive at h
  exact List.countP_eq_zero.mpr (by simpa using List.any_eq_false.mp h)

theorem createPayment_inv {db db' : DB} {p : Payment}
    (hInv : Inv db) (h : createPayment db p = .ok db') : Inv db' := by
  unfold createPayment at h
  by_cases h1 : hasPaymentID db p.id = true
  · simp [h1] at h
  · rw [if_neg (by simpa using h1)] at h
    by_cases h2 : (isActiveStatus p.status && hasActive db p.transactionID)
                    = true
    · simp [h2] at h
    · rw [if_neg (by simpa using h2)] at h
      rw [show db' = { db with payments := db.payments ++ [p] } from
        (by simpa using h.symm)]
      constructor
      · intro tid
        show (db.payments ++ [p]).countP (isActiveRow tid) ≤ 1
        rw [List.countP_append]
        by_cases hA : isActiveRow tid p = true
        · obtain ⟨htid, hst, _⟩ := isActiveRow_iff.mp hA
          have hnotact : hasActive db p.transactionID = false := by
            cases ht : hasActive db p.transactionID
            · rfl
            · exact absurd (by simp [hst, ht]) h2
          have hzero : activeCount db p.transactionID = 0 :=
            activeCount_of_hasActive_false hnotact
          have hzero' : db.payments.countP (isActiveRow tid) = 0 := by
            rw [← htid]; exact hzero
          simp [hzero', List.countP_cons, hA]
        · have := hInv.1 tid
          simp only [Bool.not_eq_true] at hA
          simpa [List.countP_cons, hA] using this
      · show (List.map Payment.id (db.payments ++ [p])).Nodup
        rw [List.map_append]
        have hnot : ¬ p.id ∈ db.payments.map Payment.id := by
          intro hmem
          obtain ⟨q, hq, hqe⟩ := List.mem_map.mp hmem
          have h1' : hasPaymentID db p.id = false := by simpa using h1
          have := List.any_eq_false.mp h1' q hq
          simp [hqe] at this
        have hnd : (db.payments.map Payment.id).Nodup := hInv.2
        simp [List.nodup_append, hnot, hnd]

theorem replacePayment_map_id (l : List Payment) (p : Payment) :
    (replacePayment l p).map Payment.id = l.map Payment.id := by
  induction l with
  | nil => rfl
  | cons r rest ih =>
    by_cases h : (r.id == p.id) = true
    · have he : r.id = p.id := beq_iff_eq.mp h
      simp [replacePayment, h, he]
    · simp [replacePayment, h, ih]

theorem replacePayment_length (l : List Payment) (p : Payment) :
    (replacePayment l p).length = l.length := by
  have := congrArg List.length (replacePayment_map_id l p)
  simpa using this

theorem replacePayment_of_no_match (l : List Payment) (p : Payment)
    (h : ∀ r ∈ l, (r.id == p.id) = false) : replacePayment l p = l := by
  induction l with
  | nil => rfl
  | cons r rest ih =>
    have hr := h r (List.mem_cons_self r rest)
    simp [replacePayment, hr,
      ih (fun q hq => h q (List.mem_cons_of_mem r hq))]

theorem countP_replace_le_of_neg (l : List Payment) (p : Payment)
    (f : Payment → Bool) (hfp : f p = false) :
    (replacePayment l p).countP f ≤ l.countP f := by
  induction l with
  | nil => simp [replacePayment]
  | cons r rest ih =>
    by_cases h : (r.id == p.id) = true
    · simp only [replacePayment, h, if_true, List.countP_cons, hfp]
      simp
    · have h' : (r.id == p.id) = false := by simpa using h
      simp only [replacePayment, h', Bool.false_eq_true, if_false,
        List.countP_cons]
      omega

theorem countP_replace_le_one (l : List Payment) (p : Payment) (tid : String)
    (hnd : (l.map Payment.id).Nodup)
    (hno : ∀ q ∈ l, q.id = p.id ∨ isActiveRow tid q = false) :
    (replacePayment l p).countP (isActiveRow tid) ≤ 1 := by
  induction l with
  | nil => simp [replacePayment]
  | cons r rest ih =>
    have hnd0 : (∀ x ∈ rest, ¬ x.id = r.id) ∧
        (List.map Payment.id rest).Nodup := by simpa using hnd
    by_cases h : (r.id == p.id) = true
    · have hpid : r.id = p.id := beq_iff_eq.mp h
      have hrest : rest.countP (isActiveRow tid) = 0 := by
        apply List.countP_eq_zero.mpr
        intro q hq
        have hqid : q.id ≠ p.id := fun he =>
          hnd0.1 q hq (he.trans hpid.symm)
        rcases hno q (List.mem_cons_of_mem r hq) with h1 | h2
        · exact absurd h1 hqid
        · simp [h2]
      simp only [replacePayment, h, if_true, List.countP_cons, hrest]
      split <;> omega
    · rcases hno r (List.mem_cons_self r rest) with h1 | h2
      · exact absurd h1 (by simpa using h)
      · have h' : (r.id == p.id) = false := by simpa using h
        simp only [replacePayment, h', Bool.false_eq_true, if_false,
          List.countP_cons, h2]
        simpa using ih hnd0.2
          (fun q hq => hno q (List.mem_cons_of_mem r hq))

theorem updatePayment_inv {db db' : DB} {p : Payment}
    (hInv : Inv db) (h : updatePayment db p = .ok db') : Inv db' := by
  unfold updatePayment at h
  by_cases hg : (hasPaymentID db p.id && isActiveStatus p.status &&
      updConflict db p) = true
  · simp [hg] at h
  · rw [if_neg (by simpa using hg)] at h
    rw [show db' = { db with payments := replacePayment db.payments p } from
      (by simpa using h.symm)]
    constructor
    · intro tid
      show (replacePayment db.payments p).countP (isActiveRow tid) ≤ 1
      by_cases hA : isActiveRow tid p = true
      · obtain ⟨htid, hst, _⟩ := isActiveRow_iff.mp hA
        by_cases hpk : hasPaymentID db p.id = true
        · have hconf : updConflict db p = false := by
            cases ht : updConflict db p
            · rfl
            · exact absurd (by simp [hpk, hst, ht]) hg
          have hno : ∀ q ∈ db.payments,
              q.id = p.id ∨ isActiveRow tid q = false := by
            intro q hq
            have := List.any_eq_false.mp hconf q hq
            by_cases hqe : q.id = p.id
            · exact Or.inl hqe
            · refine Or.inr ?_
              rw [htid] at this
              simpa [hqe] using this
          exact countP_replace_le_one db.payments p tid hInv.2 hno
        · have hpk' : hasPaymentID db p.id = false := by simpa using hpk
          rw [replacePayment_of_no_match db.payments p (by
            intro r hr
            have := List.any_eq_false.mp hpk' r hr
            simpa using this)]
          exact hInv.1 tid
      · have := hInv.1 tid
        exact le_trans (countP_replace_le_of_neg db.payments p _
          (by simpa using hA)) this
    · show (List.map Payment.id (replacePayment db.payments p)).Nodup
      rw [replacePayment_map_id]
      exact hInv.2

theorem countP_map_le {α : Type} (g : α → α) (f : α → Bool) (l : List α)
    (h : ∀ r, f (g r) = true → f r = true) :
    (l.map g).countP f ≤ l.countP f := by
  induction l with
  | nil => simp
  | cons r rest ih =>
    simp only [List.map_cons, List.countP_cons]
    by_cases hr : f (g r) = true
    · have hfr := h r hr
      simp only [hr, hfr, if_true]
      omega
    · simp only [Bool.not_eq_true] at hr
      simp only [hr, Bool.false_eq_true, if_false]
      have := ih
      split <;> omega

theorem deletePayment_inv {db : DB} {i : String} {now : Int}
    (hInv : Inv db) : Inv (deletePayment db i now) := by
  constructor
  · intro tid
    show (db.payments.map _).countP (isActiveRow tid) ≤ 1
    refine le_trans (countP_map_le _ _ _ ?_) (hInv.1 tid)
    intro r hr
    by_cases hid : (r.id == i) = true
    · rw [if_pos hid] at hr
      simp [isActiveRow] at hr
    · rwa [if_neg hid] at hr
  · show (List.map Payment.id (db.payments.map _)).Nodup
    rw [List.map_map]
    have : (Payment.id ∘ fun p =>
        if p.id == i then { p with deletedAt := some now } else p) =
        Payment.id := by
      funext r
      simp only [Function.comp_apply]
      split <;> rfl
    rw [this]
    exact hInv.2

theorem inv_of_payments_eq {db db' : DB} (hInv : Inv db)
    (h : db'.payments = db.payments) : Inv db' := by
  constructor
  · intro tid
    show db'.payments.countP (isActiveRow tid) ≤ 1
    rw [h]; exact hInv.1 tid
  · show (db'.payments.map Payment.id).Nodup
    rw [h]; exact hInv.2

theorem dbStep_inv {db db' : DB} (hInv : Inv db) (h : DBStep db db') :
    Inv db' := by
  cases h with
  | create p db db' hc => exact createPayment_inv hInv hc
  | update p db db' hc => exact updatePayment_inv hInv hc
  | softDelete i now db => exact deletePayment_inv hInv
  | createQR q db db' hc =>
    refine inv_of_payments_eq hInv ?_
    unfold createQRISCode at hc
    by_cases hg : (db.qrcodes.any fun r => r.id == q.id) = true
    · simp [hg] at hc
    · rw [if_neg (by simpa using hg)] at hc
      rw [show db' = { db with qrcodes := db.qrcodes ++ [q] } from
        (by simpa using hc.symm)]
  | updateQR q db => exact inv_of_payments_eq hInv rfl
  | deleteQR i now db => exact inv_of_payments_eq hInv rfl

theorem emptyDB_inv : Inv emptyDB := by
  constructor
  · intro tid; simp [activeCount, emptyDB]
  · simp [PKUnique, emptyDB]

theorem reachable_inv {db : DB} (h : Reachable db) : Inv db := by
  induction h with
  | refl => exact emptyDB_inv
  | tail _ hstep ih => exact dbStep_inv ih hstep

/-! ## Further helper lemmas -/

theorem getPaymentByTransactionID_mem {db : DB} {tid : String} {p : Payment}
    (h : getPaymentByTransactionID db tid = some p) :
    p ∈ db.payments ∧ p.transactionID = tid ∧ p.deletedAt = none := by
  unfold getPaymentByTransactionID at h
  have hmem : p ∈ db.payments.filter (fun r =>
      r.transactionID == tid && r.deletedAt.isNone) := by
    rcases hf : db.payments.filter (fun r =>
        r.transactionID == tid && r.deletedAt.isNone) with _ | ⟨a, l⟩
    · rw [hf] at h; simp [List.head?] at h
    · rw [hf] at h
      simp [List.head?] at h
      rw [hf, ← h]
      exact List.mem_cons_self a l
  have := List.mem_filter.mp hmem
  refine ⟨this.1, ?_, ?_⟩
  · have := this.2
    simp [Bool.and_eq_true] at this
    exact this.1
  · have := this.2
    simp [Bool.and_eq_true, Option.isNone_iff_eq_none] at this
    exact this.2

theorem replaceQRIS_length (l : List QRISCode) (q : QRISCode) :
    (replaceQRIS l q).length = l.length := by
  induction l with
  | nil => rfl
  | cons r rest ih =>
    by_cases h : (r.id == q.id) = true
    · simp [replaceQRIS, h]
    · simp [replaceQRIS, h, ih]

theorem qrisItemsSum_append (l m : List QRISItem) :
    qrisItemsSum (l ++ m) = qrisItemsSum l + qrisItemsSum m := by
  simp [qrisItemsSum, List.sum_append]

/-! ## Claim theorems -/

/-- Claim C1, amended: in every storage state reachable through the
repository operations — hence under any interleaving of any number of
concurrent `GenerateQRIS` calls, since each repository method is a single
atomic statement — at most one non-soft-deleted Payment row with status in
`{pending, success}` exists per transaction.  The guarantee is the partial
unique index enforced inside `createPayment`/`updatePayment` (storage
layer), with no in-process locking anywhere in the model. -/
theorem reachable_at_most_one_active_payment (db : DB) (h : Reachable db)
    (tid : String) : activeCount db tid ≤ 1 :=
  (reachable_inv h).1 tid

/-- Witness for C1: the one-insert state `db1` is reachable and satisfies
the bound. -/
theorem reachable_at_most_one_active_payment_witness :
    activeCount db1 cTid ≤ 1 :=
  reachable_at_most_one_active_payment db1
    (Relation.ReflTransGen.single (DBStep.create cPayA emptyDB db1 rfl)) cTid

/-- Claim C1, counterexample to "every caller receives a valid (possibly
shared) Payment and QR code pair": interleave two `GenerateQRIS` calls on
transaction `cTid`.  Caller A commits its payment insert first (one
`createPayment` step from the empty database, yielding `db1`); caller B
then runs its post-charge persistence phase against `db1` — before A has
persisted its QR code.  B's insert fails with the uniqueness violation, its
recovery lookup for the winner's QR code misses, and B receives an error
rather than a Payment+QR pair (use case lines 415–431). -/
theorem concurrent_generate_loser_gets_error :
    createPayment emptyDB cPayA = .ok db1 ∧
    (generateQRISPersist db1 cPayB cResp "qr-B" 10 52).result
      = .error (.repo .uniqueViolation) ∧
    activeCount db1 cTid = 1 :=
  ⟨rfl, rfl, rfl⟩

/-- Claim C2, amended: `GenerateQRIS` is idempotent for an existing active
payment — when the transaction already holds a payment that
`CanBeProcessed` (pending and not past expiry), the call returns exactly
that payment and its stored QR code, touching neither the gateway nor the
database; and when the pre-charge lookup missed but the payment insert
fails with the uniqueness-constraint violation, the call returns the
winning payment and its QR code instead of an error — provided both the
winning payment and its QR-code row are fetchable at that moment (the
no-error promise does not hold when the winner's QR code is not yet
persisted; see the counterexample). -/
theorem generateQRIS_idempotent_and_conflict_reconciles :
    (∀ (db : DB) (t : Transaction) (gw : Except Unit QRISResponse)
       (req : GenerateQRISRequest) (pid qid : String) (now : Int)
       (ex : Payment) (q : QRISCode),
       t.status = .pending →
       getPaymentByTransactionID db req.transactionID = some ex →
       ex.canBeProcessed now = true →
       getQRISCodeByPaymentID db ex.id = some q →
       generateQRIS db (some t) gw req pid qid now =
         { result := .ok (ex, some q), db := db, chargedGateway := false })
    ∧ (∀ (db : DB) (pe : Payment) (r : QRISResponse) (qid : String)
        (em now : Int) (w : Payment) (qw : QRISCode),
        pe.status = .pending →
        hasPaymentID db pe.id = false →
        hasActive db pe.transactionID = true →
        getPaymentByTransactionID db pe.transactionID = some w →
        getQRISCodeByPaymentID db w.id = some qw →
        generateQRISPersist db pe r qid em now =
          { result := .ok (w, some qw), db := db,
            chargedGateway := true }) := by
  constructor
  · intro db t gw req pid qid now ex q ht hex hc hq
    simp [generateQRIS, ht, hex, hc, hq]
  · intro db pe r qid em now w qw hpend hpk hact hw hq
    have hcp : createPayment db pe = .error .uniqueViolation := by
      simp [createPayment, hpk, hpend, isActiveStatus, hact]
    simp [generateQRISPersist, hcp, hw, hq]

/-- Witness for C2: on the quiescent database `db2` (payment `cPayA` with
QR code `cQRA`), a repeated generate call returns the stored pair without
charging, and a losing insert reconciles to the same pair. -/
theorem generateQRIS_idempotent_witness :
    generateQRIS db2 (some cTxn) (.ok cResp) cReq "pay-new" "qr-new" 60 =
      { result := .ok (cPayA, some cQRA), db := db2,
        chargedGateway := false }
    ∧ generateQRISPersist db2 cPayB cResp "qr-B" 10 60 =
      { result := .ok (cPayA, some cQRA), db := db2,
        chargedGateway := true } :=
  ⟨generateQRIS_idempotent_and_conflict_reconciles.1 db2 cTxn (.ok cResp)
      cReq "pay-new" "qr-new" 60 cPayA cQRA rfl rfl rfl rfl,
   generateQRIS_idempotent_and_conflict_reconciles.2 db2 cPayB cResp "qr-B"
      10 60 cPayA cQRA rfl rfl rfl rfl rfl⟩

/-- Claim C2, counterexample to "GenerateCode does not return an error":
the pre-charge lookup of a `GenerateQRIS` call on the empty database
misses; by the time it persists, a competing call has inserted `cPayA`
(but not yet its QR code), so the insert fails with the
uniqueness-constraint violation — and the recovery path returns the
original constraint-violation error, because the winner's QR-code lookup
misses (use case lines 425–429). -/
theorem conflict_reconciliation_can_error :
    getPaymentByTransactionID emptyDB cTid = none ∧
    createPayment db1 cPayB = .error .uniqueViolation ∧
    (generateQRISPersist db1 cPayB cResp "qr-B" 10 52).result =
      .error (.repo .uniqueViolation) :=
  ⟨rfl, rfl, rfl⟩

/-- Claim C3: the line-item list built for the gateway is one entry per
transaction item (unit price and quantity), plus a tax entry of amount
`taxAmount` and quantity 1 exactly when `taxAmount > 0`, plus a discount
entry of amount `-discount` and quantity 1 exactly when `discount > 0`; and
its sum equals `subtotal - discount + taxAmount`, which is exactly
`totalAmount` whenever the transaction total was computed by
`calculateTotal`. -/
theorem qris_line_items_reconcile (t : Transaction)
    (hi : ∀ it ∈ t.items, it.totalPrice = it.unitPrice * (it.quantity : ℚ))
    (htax : 0 ≤ t.taxAmount) (hdisc : 0 ≤ t.discount)
    (htot : t.totalAmount = t.getSubtotal - t.discount + t.taxAmount) :
    mapTransactionItemsToQRISItems t =
      (t.items.map fun item =>
        { id := item.productID, name := item.product.name,
          price := item.unitPrice, quantity := item.quantity : QRISItem })
      ++ (if 0 < t.taxAmount then
            [{ id := "TAX", name := "Tax", price := t.taxAmount,
               quantity := 1 }] else [])
      ++ (if 0 < t.discount then
            [{ id := "DISCOUNT", name := "Discount", price := -t.discount,
               quantity := 1 }] else [])
    ∧ qrisItemsSum (mapTransactionItemsToQRISItems t) =
        t.getSubtotal - t.discount + t.taxAmount
    ∧ qrisItemsSum (mapTransactionItemsToQRISItems t) = t.totalAmount := by
  have hshape : mapTransactionItemsToQRISItems t =
      (t.items.map fun item =>
        { id := item.productID, name := item.product.name,
          price := item.unitPrice, quantity := item.quantity : QRISItem })
      ++ (if 0 < t.taxAmount then
            [{ id := "TAX", name := "Tax", price := t.taxAmount,
               quantity := 1 }] else [])
      ++ (if 0 < t.discount then
            [{ id := "DISCOUNT", name := "Discount", price := -t.discount,
               quantity := 1 }] else []) := by
    by_cases h1 : 0 < t.taxAmount <;> by_cases h2 : 0 < t.discount <;>
      simp [mapTransactionItemsToQRISItems, h1, h2]
  have hbase : qrisItemsSum (t.items.map fun item =>
      { id := item.productID, name := item.product.name,
        price := item.unitPrice, quantity := item.quantity : QRISItem }) =
      t.getSubtotal := by
    unfold qrisItemsSum Transaction.getSubtotal
    rw [List.map_map]
    refine congrArg List.sum (List.map_congr_left ?_)
    intro it hit
    simpa using (hi it hit).symm
  have htaxsum : qrisItemsSum (if 0 < t.taxAmount then
      [{ id := "TAX", name := "Tax", price := t.taxAmount,
         quantity := 1 : QRISItem }] else []) = t.taxAmount := by
    by_cases h1 : 0 < t.taxAmount
    · simp [qrisItemsSum, h1]
    · have h0 : t.taxAmount = 0 := le_antisymm (not_lt.mp h1) htax
      simp [qrisItemsSum, h1, h0]
  have hdiscsum : qrisItemsSum (if 0 < t.discount then
      [{ id := "DISCOUNT", name := "Discount", price := -t.discount,
         quantity := 1 : QRISItem }] else []) = -t.discount := by
    by_cases h2 : 0 < t.discount
    · simp [qrisItemsSum, h2]
    · have h0 : t.discount = 0 := le_antisymm (not_lt.mp h2) hdisc
      simp [qrisItemsSum, h2, h0]
  have hsum : qrisItemsSum (mapTransactionItemsToQRISItems t) =
      t.getSubtotal - t.discount + t.taxAmount := by
    rw [hshape, qrisItemsSum_append, qrisItemsSum_append, hbase, htaxsum,
      hdiscsum]
    ring
  exact ⟨hshape, hsum, by rw [hsum, htot]⟩

/-- Witness for C3: the worked example of the spec — items 2×10000 and
1×5000, tax 2500, discount 0 — yields gateway items summing to 27500,
matching the transaction total. -/
theorem qris_line_items_reconcile_witness :
    qrisItemsSum (mapTransactionItemsToQRISItems exTxn) = exTxn.totalAmount
    ∧ qrisItemsSum (mapTransactionItemsToQRISItems exTxn) =
        exTxn.getSubtotal - exTxn.discount + exTxn.taxAmount :=
  ⟨(qris_line_items_reconcile exTxn
      (by
        intro it hit
        fin_cases hit <;> norm_num [exItem1, exItem2])
      (by norm_num [exTxn]) (by norm_num [exTxn])
      (by norm_num [Transaction.getSubtotal, exTxn, exItem1, exItem2])).2.2,
   (qris_line_items_reconcile exTxn
      (by
        intro it hit
        fin_cases hit <;> norm_num [exItem1, exItem2])
      (by norm_num [exTxn]) (by norm_num [exTxn])
      (by norm_num [Transaction.getSubtotal, exTxn, exItem1, exItem2])).2.1⟩

/-- Claim C4: for a pending, unexpired payment with a stored order
reference, a successful gateway query maps the external status exactly as
`settlement|capture → success`, `pending → pending`,
`deny|cancel|expire → failed`, anything else `→ pending`; in the success
case the payment additionally gets `paidAt`, the external reference and
response payload (via `markAsSuccess`), the owning transaction is marked
`paid`, and the payment update is persisted. -/
theorem getPaymentStatus_maps_external_status (p : Payment)
    (t : Transaction) (m : MidtransStatus) (now : Int)
    (hp : p.status = .pending) (hx : p.isExpired now = false)
    (ho : p.orderID ≠ "") (ht : t.status = .pending) :
    ((m.transactionStatus = "settlement" ∨
        m.transactionStatus = "capture") →
      getPaymentStatus p (some t) (.ok m) now =
        { resp := { transactionID := p.transactionID, status := .success,
                    externalID := m.transactionID,
                    message := m.statusMessage }
          payment := p.markAsSuccess m.transactionID m.statusMessage now
          transaction := some { t with status := .paid, updatedAt := now }
          calledGateway := true, persistedPayment := true,
          persistedTransaction := true })
    ∧ (m.transactionStatus = "pending" →
      getPaymentStatus p (some t) (.ok m) now =
        { resp := { transactionID := p.transactionID, status := .pending,
                    externalID := m.transactionID,
                    message := m.statusMessage }
          payment := p, transaction := some t, calledGateway := true,
          persistedPayment := true, persistedTransaction := false })
    ∧ ((m.transactionStatus = "deny" ∨ m.transactionStatus = "cancel" ∨
        m.transactionStatus = "expire") →
      getPaymentStatus p (some t) (.ok m) now =
        { resp := { transactionID := p.transactionID, status := .failed,
                    externalID := m.transactionID,
                    message := m.statusMessage }
          payment := p.markAsFailed m.statusMessage,
          transaction := some t, calledGateway := true,
          persistedPayment := true, persistedTransaction := false })
    ∧ (m.transactionStatus ≠ "settlement" →
       m.transactionStatus ≠ "capture" → m.transactionStatus ≠ "pending" →
       m.transactionStatus ≠ "deny" → m.transactionStatus ≠ "cancel" →
       m.transactionStatus ≠ "expire" →
      getPaymentStatus p (some t) (.ok m) now =
        { resp := { transactionID := p.transactionID, status := .pending,
                    externalID := m.transactionID,
                    message := m.statusMessage }
          payment := p, transaction := some t, calledGateway := true,
          persistedPayment := true, persistedTransaction := false }) := by
  refine ⟨?_, ?_, ?_, ?_⟩
  · rintro (h | h) <;>
      simp [getPaymentStatus, hp, hx, ho, h, Transaction.markAsPaid, ht,
        Except.toOption]
  · intro h
    simp [getPaymentStatus, hp, hx, ho, h]
  · rintro (h | h | h) <;>
      simp [getPaymentStatus, hp, hx, ho, h]
  · intro h1 h2 h3 h4 h5 h6
    simp [getPaymentStatus, hp, hx, ho, h1, h2, h3, h4, h5, h6]

/-- Witness for C4: a settlement answer on a concrete pending payment. -/
theorem getPaymentStatus_maps_external_status_witness :
    getPaymentStatus cPayA (some cTxn) (.ok cSettlement) 60 =
      { resp := { transactionID := cTid, status := .success,
                  externalID := "mid-123",
                  message := "Success, transaction is found" }
        payment := cPayA.markAsSuccess "mid-123"
          "Success, transaction is found" 60
        transaction := some { cTxn with status := .paid, updatedAt := 60 }
        calledGateway := true, persistedPayment := true,
        persistedTransaction := true } :=
  (getPaymentStatus_maps_external_status cPayA cTxn cSettlement 60 rfl rfl
      (by decide) rfl).1 (Or.inl rfl)

/-- Claim C5: a pending payment past its expiry transitions to `expired` on
the next `GetPaymentStatus` call, the change is persisted, the response is
`expired`, the gateway is not called, and the owning transaction is left
untouched. -/
theorem getPaymentStatus_expired_transition (p : Payment)
    (txn : Option Transaction) (gw : GatewayResult) (now : Int)
    (hp : p.status = .pending) (hx : p.isExpired now = true) :
    getPaymentStatus p txn gw now =
      { resp := { transactionID := p.transactionID, status := .expired,
                  externalID := "", message := "Payment has expired" }
        payment := p.markAsExpired, transaction := txn,
        calledGateway := false, persistedPayment := true,
        persistedTransaction := false } := by
  simp [getPaymentStatus, hp, hx]

/-- Witness for C5: `cPayA` (expires at 650) polled at tick 700. -/
theorem getPaymentStatus_expired_transition_witness :
    getPaymentStatus cPayA (some cTxn) .fail 700 =
      { resp := { transactionID := cTid, status := .expired,
                  externalID := "", message := "Payment has expired" }
        payment := cPayA.markAsExpired, transaction := some cTxn,
        calledGateway := false, persistedPayment := true,
        persistedTransaction := false } :=
  getPaymentStatus_expired_transition cPayA (some cTxn) .fail 700 rfl rfl

/-- Claim C6: terminal statuses are monotone — for a payment in `success`,
`failed` or `cancelled`, `GetPaymentStatus` returns the stored status as-is
with no gateway call and no writes; and `HandlePaymentNotification` (a
logging stub) never changes any state, so no replayed or stale notification
can downgrade a terminal status. -/
theorem terminal_status_monotone :
    (∀ (p : Payment) (txn : Option Transaction) (gw : GatewayResult)
       (now : Int),
       p.status = .success ∨ p.status = .failed ∨ p.status = .cancelled →
       getPaymentStatus p txn gw now =
         { resp := { transactionID := p.transactionID, status := p.status,
                     externalID := p.externalID,
                     message := "Payment status: " ++ statusText p.status }
           payment := p, transaction := txn, calledGateway := false,
           persistedPayment := false, persistedTransaction := false })
    ∧ (∀ (db : DB) (orderID st extID resp : String),
       handlePaymentNotification db orderID st extID resp = (db, none)) := by
  constructor
  · rintro p txn gw now (h | h | h) <;> simp [getPaymentStatus, h]
  · intro db o s e r
    rfl

/-- Witness for C6: a successful payment polled again, and a stale pending
notification after success. -/
theorem terminal_status_monotone_witness :
    getPaymentStatus (cPayA.markAsSuccess "mid-123" "ok" 60) (some cTxn)
        (.ok { transactionStatus := "pending", transactionID := "mid-123",
               statusMessage := "stale" }) 100 =
      { resp := { transactionID := cTid, status := .success,
                  externalID := "mid-123",
                  message := "Payment status: success" }
        payment := cPayA.markAsSuccess "mid-123" "ok" 60,
        transaction := some cTxn, calledGateway := false,
        persistedPayment := false, persistedTransaction := false }
    ∧ handlePaymentNotification db2 (orderIDFor cTid 50) "pending"
        "mid-123" "stale" = (db2, none) :=
  ⟨terminal_status_monotone.1 (cPayA.markAsSuccess "mid-123" "ok" 60)
      (some cTxn)
      (.ok { transactionStatus := "pending", transactionID := "mid-123",
             statusMessage := "stale" }) 100 (Or.inl rfl),
   terminal_status_monotone.2 db2 (orderIDFor cTid 50) "pending" "mid-123"
      "stale"⟩

/-- Claim C7: for a pending, unexpired payment with a stored order
reference, a gateway status-query failure does not surface as an error:
the call returns the local `pending` status and leaves the stored payment
state untouched (nothing is persisted). -/
theorem getPaymentStatus_gateway_failure_degrades (p : Payment)
    (txn : Option Transaction) (now : Int)
    (hp : p.status = .pending) (hx : p.isExpired now = false)
    (ho : p.orderID ≠ "") :
    getPaymentStatus p txn .fail now =
      { resp := { transactionID := p.transactionID, status := .pending,
                  externalID := "",
                  message :=
                    "Payment is pending. Waiting for customer to complete payment." }
        payment := p, transaction := txn, calledGateway := true,
        persistedPayment := false, persistedTransaction := false } := by
  simp [getPaymentStatus, hp, hx, ho]

/-- Witness for C7: `cPayA` polled at tick 60 with the gateway down. -/
theorem getPaymentStatus_gateway_failure_degrades_witness :
    getPaymentStatus cPayA (some cTxn) .fail 60 =
      { resp := { transactionID := cTid, status := .pending,
                  externalID := "",
                  message :=
                    "Payment is pending. Waiting for customer to complete payment." }
        payment := cPayA, transaction := some cTxn, calledGateway := true,
        persistedPayment := false, persistedTransaction := false } :=
  getPaymentStatus_gateway_failure_degrades cPayA (some cTxn) 60 rfl rfl
    (by decide)

/-- Claim C10: a pending, unexpired payment whose stored order reference is
empty is answered locally — no gateway call, a `pending` response with the
informational message, and no modification of the row; moreover any later
poll of such a payment can only answer `pending` or `expired` (never
`success` or `failed`), still without a gateway call and with the order
reference still empty. -/
theorem getPaymentStatus_missing_order_reference (p : Payment)
    (txn : Option Transaction) (gw : GatewayResult) (now : Int)
    (hp : p.status = .pending) (ho : p.orderID = "") :
    (p.isExpired now = false →
      getPaymentStatus p txn gw now =
        { resp := { transactionID := p.transactionID, status := .pending,
                    externalID := "",
                    message :=
                      "Payment is pending. Waiting for customer to complete payment." }
          payment := p, transaction := txn, calledGateway := false,
          persistedPayment := false, persistedTransaction := false })
    ∧ (∀ now2 : Int,
        ((getPaymentStatus p txn gw now2).resp.status = .pending ∨
         (getPaymentStatus p txn gw now2).resp.status = .expired)
        ∧ (getPaymentStatus p txn gw now2).payment.orderID = ""
        ∧ (getPaymentStatus p txn gw now2).calledGateway = false) := by
  constructor
  · intro hx
    simp [getPaymentStatus, hp, hx, ho]
  · intro now2
    by_cases hx : p.isExpired now2 = true
    · simp [getPaymentStatus, hp, hx, ho, Payment.markAsExpired]
    · have hx2 : p.isExpired now2 = false := by simpa using hx
      simp [getPaymentStatus, hp, hx2, ho]

/-- Witness for C10: `cPayA` with its order reference blanked. -/
theorem getPaymentStatus_missing_order_reference_witness :
    getPaymentStatus { cPayA with orderID := "" } (some cTxn)
        (.ok cSettlement) 60 =
      { resp := { transactionID := cTid, status := .pending,
                  externalID := "",
                  message :=
                    "Payment is pending. Waiting for customer to complete payment." }
        payment := { cPayA with orderID := "" }, transaction := some cTxn,
        calledGateway := false, persistedPayment := false,
        persistedTransaction := false }
    ∧ ((getPaymentStatus { cPayA with orderID := "" } (some cTxn)
          (.ok cSettlement) 700).resp.status = .pending ∨
        (getPaymentStatus { cPayA with orderID := "" } (some cTxn)
          (.ok cSettlement) 700).resp.status = .expired) :=
  ⟨(getPaymentStatus_missing_order_reference { cPayA with orderID := "" }
      (some cTxn) (.ok cSettlement) 60 rfl rfl).1 rfl,
   ((getPaymentStatus_missing_order_reference { cPayA with orderID := "" }
      (some cTxn) (.ok cSettlement) 60 rfl rfl).2 700).1⟩

/-- Claim C8: `RefreshQRIS` succeeds only from `pending` or `expired` — for
`success`, `failed` or `cancelled` it fails with the invalid-state error
before any gateway call or state change; and a successful refresh of a
payment that has a QR-code row rewrites the same payment row in place (new
order reference and expiry, status reset to `pending`, external reference
and response cleared) and the same QR-code row in place (new code, URL and
expiry), leaving the number of payment and QR-code rows unchanged. -/
theorem refreshQRIS_guard_and_in_place_update (db : DB) (t : Transaction)
    (r : QRISResponse) (tid newQRID : String) (now : Int)
    (p : Payment) (q : QRISCode)
    (hp : getPaymentByTransactionID db tid = some p) :
    ((p.status = .success ∨ p.status = .failed ∨ p.status = .cancelled) →
      ∀ (txn : Option Transaction) (gw : Except Unit QRISResponse),
        refreshQRIS db txn gw tid newQRID now =
          { result := .error .cannotRefresh, db := db,
            chargedGateway := false })
    ∧ ((p.status = .pending ∨ p.status = .expired) →
       getQRISCodeByPaymentID db p.id = some q →
       q.id ≠ "" →
       (∀ pr ∈ db.payments,
          pr.id = p.id ∨ isActiveRow p.transactionID pr = false) →
       refreshQRIS db (some t) (.ok r) tid newQRID now =
          { result := .ok (refreshedPayment p tid now,
              some (refreshedQRIS q r now)),
            db := { db with
              payments := replacePayment db.payments
                (refreshedPayment p tid now)
              qrcodes := replaceQRIS db.qrcodes (refreshedQRIS q r now) },
            chargedGateway := true }
        ∧ (refreshQRIS db (some t) (.ok r) tid newQRID
              now).db.payments.length = db.payments.length
        ∧ (refreshQRIS db (some t) (.ok r) tid newQRID
              now).db.qrcodes.length = db.qrcodes.length) := by
  constructor
  · rintro (h | h | h) txn gw <;> simp [refreshQRIS, hp, h]
  · intro hps hq hqid hno
    have hcond : ¬(p.status ≠ PaymentStatus.pending ∧
        p.status ≠ PaymentStatus.expired) := by
      rcases hps with h | h <;> simp [h]
    have hupd : updatePayment db (refreshedPayment p tid now) =
        .ok { db with
          payments := replacePayment db.payments
            (refreshedPayment p tid now) } := by
      have hconf : updConflict db (refreshedPayment p tid now) = false := by
        unfold updConflict
        apply List.any_eq_false.mpr
        intro pr hpr
        rcases hno pr hpr with h1 | h2
        · simp [h1, refreshedPayment]
        · simp [refreshedPayment, h2]
      simp [updatePayment, hconf]
    have hres : refreshQRIS db (some t) (.ok r) tid newQRID now =
        { result := .ok (refreshedPayment p tid now,
            some (refreshedQRIS q r now)),
          db := { db with
            payments := replacePayment db.payments
              (refreshedPayment p tid now)
            qrcodes := replaceQRIS db.qrcodes (refreshedQRIS q r now) },
          chargedGateway := true } := by
      have hupd2 := hupd
      simp only [refreshedPayment] at hupd2
      simp only [refreshedPayment, refreshedQRIS]
      simp only [refreshQRIS, hp, hq]
      rw [if_neg hcond]
      simp only [hupd2, updateQRISCode]
      rw [if_neg hqid]
    refine ⟨hres, ?_, ?_⟩
    · rw [hres]
      exact replacePayment_length db.payments _
    · rw [hres]
      exact replaceQRIS_length db.qrcodes _

/-- Witness for C8: refreshing the pending payment `cPayA` with QR code
`cQRA` at tick 700 (past its expiry) rewrites both rows in place. -/
theorem refreshQRIS_guard_and_in_place_update_witness :
    refreshQRIS db2 (some cTxn) (.ok cResp) cTid "qr-new" 700 =
      { result := .ok (refreshedPayment cPayA cTid 700,
          some (refreshedQRIS cQRA cResp 700)),
        db := { db2 with
          payments := replacePayment db2.payments
            (refreshedPayment cPayA cTid 700)
          qrcodes := replaceQRIS db2.qrcodes
            (refreshedQRIS cQRA cResp 700) },
        chargedGateway := true }
    ∧ (refreshQRIS db2 (some cTxn) (.ok cResp) cTid "qr-new"
          700).db.payments.length = db2.payments.length :=
  ⟨((refreshQRIS_guard_and_in_place_update db2 cTxn cResp cTid "qr-new" 700
      cPayA cQRA rfl).2 (Or.inl rfl) rfl (by decide)
      (by intro pr hpr; fin_cases hpr; exact Or.inl rfl)).1,
   ((refreshQRIS_guard_and_in_place_update db2 cTxn cResp cTid "qr-new" 700
      cPayA cQRA rfl).2 (Or.inl rfl) rfl (by decide)
      (by intro pr hpr; fin_cases hpr; exact Or.inl rfl)).2.1⟩

/-- Claim C9 (evaluation at the failing input): `Transaction.AddItem` does
not reject a non-positive quantity — adding quantity 0 of an available,
in-stock product to an empty pending cart succeeds and appends a
quantity-0 line item, even though the `transaction_items` column is
declared with `check:quantity > 0`. -/
theorem addItem_accepts_zero_quantity :
    exCart.addItem "p1" (some exProd) 0 "item-1" 7 =
      .ok { exCart with
        items := [{ id := "item-1", transactionID := "tx-cart",
                    productID := "p1", quantity := 0, unitPrice := 10,
                    totalPrice := 10 * ((0 : Int) : ℚ),
                    product := exProd }]
        totalAmount :=
          (10 * ((0 : Int) : ℚ)) - exCart.discount + exCart.taxAmount
        updatedAt := 7 } := by
  simp [Transaction.addItem, Transaction.calculateTotal,
    Transaction.getSubtotal, exCart, exProd, Product.isAvailable,
    Product.canFulfillQuantity]

end QrisPos
